import Mathlib

/-!
Formal model of `astroquery/mast/utils.py` (the single source file of this
repository): the type normalizer `_parse_type`, the HTTP wrapper
`_simple_request`, and the name resolver `resolve_object`, shallowly embedded
in Lean, together with theorems settling the specification claims.
-/

/-- Python-level runtime errors that the modelled code can raise. -/
inductive PyError where
  | typeError (msg : String)
  | keyError (key : String)
  | indexError (msg : String)
  | jsonDecodeError
  | httpError (status : Nat)
  | resolverError (msg : String)
deriving DecidableEq, Repr

/-- Second components of the triplets returned by `_parse_type`: the Python
type objects `str`, `np.float64`, `np.int64`, `bool`, `np.ubyte`, or — in the
fallback branch of the dict lookup — the token string itself. -/
inductive PyType where
  | pystr
  | npFloat64
  | npInt64
  | pybool
  | npUbyte
  | strVal (s : String)
deriving DecidableEq, Repr

/-- Third components of the triplets returned by `_parse_type`: the Python
values `""`, `np.nan`, `-999`, `None`, or the token string itself. `np.nan`
is modelled as a distinguished constant (no floating-point arithmetic is
performed on it anywhere in the code). -/
inductive PyVal where
  | str (s : String)
  | nan
  | int (z : Int)
  | none
deriving DecidableEq, Repr

/-- Model of Python `str.lower()` on the basic latin letters: maps `A`-`Z` to
`a`-`z` and leaves every other character unchanged (all tokens in the
recognized table of `_parse_type` are ASCII, where Python's `str.lower` acts
exactly like this). -/
def pyLower (s : String) : String :=
  String.mk (s.data.map Char.toLower)

/-- Model of Python `str.upper()` on the basic latin letters, the inverse
direction of `pyLower`. -/
def pyUpper (s : String) : String :=
  String.mk (s.data.map Char.toUpper)

/-- The dict literal of `_parse_type` (src/astroquery/mast/utils.py, lines
45-64), as a partial lookup on the already lower-cased token; `Option.none`
models absence of the key, on which `.get` selects the fallback triplet. -/
def typeTable (d : String) : Option (String × PyType × PyVal) :=
  match d with
  | "char" => some ("string", PyType.pystr, PyVal.str "")
  | "string" => some ("string", PyType.pystr, PyVal.str "")
  | "datetime" => some ("string", PyType.pystr, PyVal.str "")
  | "date" => some ("string", PyType.pystr, PyVal.str "")
  | "double" => some ("float", PyType.npFloat64, PyVal.nan)
  | "float" => some ("float", PyType.npFloat64, PyVal.nan)
  | "decimal" => some ("float", PyType.npFloat64, PyVal.nan)
  | "int" => some ("integer", PyType.npInt64, PyVal.int (-999))
  | "short" => some ("integer", PyType.npInt64, PyVal.int (-999))
  | "long" => some ("integer", PyType.npInt64, PyVal.int (-999))
  | "number" => some ("integer", PyType.npInt64, PyVal.int (-999))
  | "boolean" => some ("boolean", PyType.pybool, PyVal.none)
  | "binary" => some ("boolean", PyType.pybool, PyVal.none)
  | "unsignedbyte" => some ("byte", PyType.npUbyte, PyVal.int (-999))
  | _ => none

/-- Embeds `_parse_type` (src/astroquery/mast/utils.py, lines 22-64):
lower-cases the input, then performs the dict `.get` with the echo triplet
`(dbtype, dbtype, dbtype)` — on the lower-cased name, which the Python code
has rebound — as the default. -/
def _parse_type (dbtype : String) : String × PyType × PyVal :=
  let d := pyLower dbtype
  (typeTable d).getD (d, PyType.strVal d, PyVal.str d)

/-- The fixed set of recognized tokens: exactly the keys of the dict literal
in `_parse_type`. -/
def recognizedTokens : List String :=
  ["char", "string", "datetime", "date", "double", "float", "decimal",
   "int", "short", "long", "number", "boolean", "binary", "unsignedbyte"]

/-- Parsed JSON values, the output of response.json() in the Python code.
Numbers are carried as exact rationals; none of the modelled code performs
arithmetic on them, it only moves them around. -/
inductive JVal where
  | null
  | bool (b : Bool)
  | num (q : Rat)
  | str (s : String)
  | arr (elems : List JVal)
  | obj (fields : List (String × JVal))

/-- Lookup in a Python dict represented as an association list in insertion
order: json.loads builds the dict by successive assignment, so a later
binding of the same key overwrites an earlier one (last occurrence wins). -/
def lookupLast (fields : List (String × JVal)) (key : String) : Option JVal :=
  match fields with
  | [] => none
  | (k, v) :: rest =>
    match lookupLast rest key with
    | some w => some w
    | none => if k = key then some v else none

/-- Python subscript `v[key]` with a str key: dict lookup raising KeyError
when the key is absent, TypeError when the value is a list (list indices
must be integers) or any other non-subscriptable or non-str-keyed value. -/
def getItem (v : JVal) (key : String) : Except PyError JVal :=
  match v with
  | JVal.obj fields =>
    match lookupLast fields key with
    | some w => Except.ok w
    | none => Except.error (PyError.keyError key)
  | JVal.arr _ => Except.error (PyError.typeError "list indices must be integers or slices, not str")
  | JVal.str _ => Except.error (PyError.typeError "string indices must be integers")
  | _ => Except.error (PyError.typeError "object is not subscriptable")

/-- Python subscript `v[i]` with a non-negative int index: list indexing
raising IndexError out of range, str indexing yielding a one-character str,
dict lookup raising KeyError (json.loads keys are strings, an int key is
never present), TypeError otherwise. -/
def getIndex (v : JVal) (i : Nat) : Except PyError JVal :=
  match v with
  | JVal.arr elems =>
    match elems.get? i with
    | some w => Except.ok w
    | none => Except.error (PyError.indexError "list index out of range")
  | JVal.str s =>
    match s.data.get? i with
    | some c => Except.ok (JVal.str (String.mk [c]))
    | none => Except.error (PyError.indexError "string index out of range")
  | JVal.obj _ => Except.error (PyError.keyError (toString i))
  | _ => Except.error (PyError.typeError "object is not subscriptable")

/-- Python len(v): length of a list or str, number of distinct keys of a
dict, TypeError on values that have no len(). -/
def pyLen (v : JVal) : Except PyError Nat :=
  match v with
  | JVal.arr elems => Except.ok elems.length
  | JVal.str s => Except.ok s.length
  | JVal.obj fields => Except.ok ((fields.map Prod.fst).eraseDups.length)
  | _ => Except.error (PyError.typeError "object has no len()")

/-- The value returned by resolve_object on success: coord.SkyCoord(ra, dec,
unit="deg") from line 110, modelled as the pair of field values it was
constructed from together with the fixed unit string. -/
structure SkyPosition where
  ra : JVal
  dec : JVal
  unit : String

/-- An HTTP response as the modelled code observes it: its status code and
the result of parsing its body as JSON (none when the body is not valid
JSON, in which case response.json() raises). -/
structure HttpResponse where
  status_code : Nat
  jsonBody : Option JVal

/-- The outgoing request assembled by _simple_request before it is handed to
the transport: target URL, params string and header list. -/
structure OutgoingRequest where
  url : String
  params : String
  headers : List (String × String)

/-- Embeds the header construction of _simple_request (lines 72-75): a
User-Agent composed of the astroquery version and the default User-Agent of
a freshly created requests session, plus fixed content-type and accept
headers. The version string and the session default User-Agent are external
inputs, passed as parameters. -/
def request_headers (version defaultUA : String) : List (String × String) :=
  [("User-Agent", "astroquery/" ++ version ++ " " ++ defaultUA),
   ("Content-type", "application/x-www-form-urlencoded"),
   ("Accept", "text/plain")]

/-- Case-insensitive header lookup: HTTP header names are case-insensitive
and requests stores them in a case-insensitive mapping. -/
def headerValue (headers : List (String × String)) (name : String) : Option String :=
  (headers.find? (fun kv => pyLower kv.1 = pyLower name)).map Prod.snd

/-- Embeds response.raise_for_status() (line 78): requests raises HTTPError
exactly for status codes 400-499 (client error) and 500-599 (server error),
and returns None on every other status code. -/
def raise_for_status (r : HttpResponse) : Except PyError Unit :=
  if 400 ≤ r.status_code ∧ r.status_code < 600 then
    Except.error (PyError.httpError r.status_code)
  else Except.ok ()

/-- Embeds _simple_request (lines 67-80): builds the headers, performs one
request through the transport (the mockable network), raises for a
client/server error status and otherwise returns the response. -/
def _simple_request (version defaultUA : String)
    (transport : OutgoingRequest → HttpResponse)
    (url params : String) : Except PyError HttpResponse :=
  let response := transport (OutgoingRequest.mk url params (request_headers version defaultUA))
  match raise_for_status response with
  | Except.error e => Except.error e
  | Except.ok _ => Except.ok response

/-- Embeds response.json() (line 103): the parsed body, or a decode error
when the body is not valid JSON. -/
def response_json (r : HttpResponse) : Except PyError JVal :=
  match r.jsonBody with
  | some v => Except.ok v
  | none => Except.error PyError.jsonDecodeError

/-- Hex digit character for JSON \uXXXX escapes. -/
def hexDigit (n : Nat) : Char :=
  if n < 10 then Char.ofNat (48 + n) else Char.ofNat (87 + n)

/-- Four-digit lowercase hex rendering used by json.dumps escapes. -/
def toHex4 (n : Nat) : String :=
  String.mk [hexDigit (n / 4096 % 16), hexDigit (n / 256 % 16),
             hexDigit (n / 16 % 16), hexDigit (n % 16)]

/-- Escape of a single character inside a JSON string literal, following
json.dumps with its default ensure_ascii=True: backslash and double quote
get two-character escapes, the five named control characters get their
shorthands, all other characters outside the printable ASCII range 0x20-0x7e
become \uXXXX (with a surrogate pair above 0xffff), and printable ASCII is
kept as is. -/
def jsonEscapeChar (c : Char) : String :=
  if c = Char.ofNat 92 then "\\\\"
  else if c = Char.ofNat 34 then "\\\""
  else if c = Char.ofNat 8 then "\\b"
  else if c = Char.ofNat 9 then "\\t"
  else if c = Char.ofNat 10 then "\\n"
  else if c = Char.ofNat 12 then "\\f"
  else if c = Char.ofNat 13 then "\\r"
  else if c.toNat < 32 ∨ c.toNat > 126 then
    if c.toNat < 65536 then "\\u" ++ toHex4 c.toNat
    else
      "\\u" ++ toHex4 (55296 + (c.toNat - 65536) / 1024) ++
      "\\u" ++ toHex4 (56320 + (c.toNat - 65536) % 1024)
  else String.mk [c]

/-- Serialization of a Python str as a JSON string literal, as json.dumps
produces it. -/
def jsonDumpStr (s : String) : String :=
  "\"" ++ String.join (s.data.map jsonEscapeChar) ++ "\""

/-- Embeds json.dumps(request_args) for the payload dict built on lines
98-99. Python dicts keep insertion order and json.dumps serializes with the
default separators, so the document is fully determined by objectname. -/
def request_args_json (objectname : String) : String :=
  "\x7b\"service\": \"Mast.Name.Lookup\", \"params\": \x7b\"input\": " ++
    jsonDumpStr objectname ++ ", \"format\": \"json\"\x7d\x7d"

/-- Embeds parse.urlencode applied to a str argument, as on line 100 where
json.dumps(...) — a str — is passed to urllib.parse.urlencode, which expects
a mapping or a sequence of two-element tuples. CPython first checks for an
items attribute (a str has none), then evaluates len(query) and whether
query[0] is a tuple; for a non-empty str the first element is a
one-character str, so it raises TypeError, while the empty str passes the
check and yields the empty result. -/
def urlencode (query : String) : Except PyError String :=
  match query.data with
  | [] => Except.ok ""
  | _ :: _ =>
    Except.error (PyError.typeError "not a valid non-string sequence or mapping object")

/-- Embeds line 100: the request body string built by formatting the
urlencoded JSON document into request=... . -/
def request_string (objectname : String) : Except PyError String :=
  match urlencode (request_args_json objectname) with
  | Except.ok enc => Except.ok ("request=" ++ enc)
  | Except.error e => Except.error e

/-- Embeds lines 105-112 of resolve_object, the processing of the parsed
JSON body: subscript resolvedCoordinate, test its len against zero, raise
ResolverError naming the object when empty, otherwise subscript candidate 0
for its ra and decl fields and build the SkyCoord with unit deg. The
repeated subscripts mirror lines 105, 108 and 109 of the source. -/
def resolve_object_from_json (objectname : String) (result : JVal) :
    Except PyError SkyPosition := do
  let rc ← getItem result "resolvedCoordinate"
  let n ← pyLen rc
  if n = 0 then
    Except.error (PyError.resolverError
      ("Could not resolve " ++ objectname ++ " to a sky position."))
  else do
    let ra ← getItem (← getIndex (← getItem result "resolvedCoordinate") 0) "ra"
    let dec ← getItem (← getIndex (← getItem result "resolvedCoordinate") 0) "decl"
    Except.ok (SkyPosition.mk ra dec "deg")

/-- Embeds lines 102-112 of resolve_object, everything after the request
string has been built: one _simple_request against the invoke endpoint of
the configured server, response.json(), then the candidate processing. -/
def resolve_object_after_encode (version defaultUA server : String)
    (transport : OutgoingRequest → HttpResponse)
    (objectname request_str : String) : Except PyError SkyPosition := do
  let response ← _simple_request version defaultUA transport
    (server ++ "/api/v0/invoke") request_str
  let result ← response_json response
  resolve_object_from_json objectname result

/-- Embeds resolve_object (lines 83-112) in full: build the request string
(lines 98-100), then perform the request and process the response. The
version, the session default User-Agent and conf.server are external inputs,
passed as parameters; the transport stands for the network. -/
def resolve_object (version defaultUA server : String)
    (transport : OutgoingRequest → HttpResponse)
    (objectname : String) : Except PyError SkyPosition := do
  let rs ← request_string objectname
  resolve_object_after_encode version defaultUA server transport objectname rs

/-- Substring containment, the Python in operator on str: sub occurs inside
s. Used to state that an error message contains the object name. -/
def containsSubstring (s sub : String) : Prop := ∃ p q, s = p ++ sub ++ q

/-- The situation in which line 106 raises ResolverError: the parsed body is
a dict, its resolvedCoordinate entry exists and its len is zero. -/
def resolvedCoordinateEmpty (result : JVal) : Prop :=
  ∃ fields rc, result = JVal.obj fields ∧
    lookupLast fields "resolvedCoordinate" = some rc ∧ pyLen rc = Except.ok 0

/-- A mocked response with status 304 Not Modified and no JSON body: a
status outside the 2xx success range on which raise_for_status does not
raise. -/
def response304 : HttpResponse := HttpResponse.mk 304 none

/-- A mocked response with status 404 and no JSON body. -/
def response404 : HttpResponse := HttpResponse.mk 404 none

/-- A mocked response with status 200 and the JSON body null. -/
def response200null : HttpResponse := HttpResponse.mk 200 (some JVal.null)

/-- A mocked 200 response whose body resolves a name to two candidates, the
second with its fields in the opposite order: the resolver must use the
first and ignore the rest. -/
def crabResponse : HttpResponse :=
  HttpResponse.mk 200 (some (JVal.obj [("resolvedCoordinate", JVal.arr
    [JVal.obj [("ra", JVal.num (83633/1000)), ("decl", JVal.num (220145/10000))],
     JVal.obj [("decl", JVal.num 2), ("ra", JVal.num 1)]])]))

/-- A mocked 200 response whose body has an empty resolvedCoordinate list. -/
def emptyResolveResponse : HttpResponse :=
  HttpResponse.mk 200 (some (JVal.obj [("resolvedCoordinate", JVal.arr [])]))

/-- Helper: Char.ofNat of a valid codepoint converts back to the same Nat. -/
theorem toNat_ofNat_of_valid {n : Nat} (h : n.isValidChar) : (Char.ofNat n).toNat = n := by
  simp [Char.ofNat, dif_pos h, Char.ofNatAux, Char.toNat, UInt32.toNat, BitVec.toNat_ofNatLt]

/-- Helper: lower-casing a character twice is the same as once (lower-casing
an upper-case latin letter lands outside the upper-case range). -/
theorem toLower_idem (c : Char) : c.toLower.toLower = c.toLower := by
  simp only [Char.toLower]
  by_cases h : c.toNat ≥ 65 ∧ c.toNat ≤ 90
  · rw [if_pos h]
    have hv : Nat.isValidChar (c.toNat + 32) := Or.inl (by omega)
    rw [toNat_ofNat_of_valid hv]
    rw [if_neg (by omega)]
  · rw [if_neg h, if_neg h]

/-- Helper: the string-level lower-casing of the model is idempotent. -/
theorem pyLower_idem (s : String) : pyLower (pyLower s) = pyLower s := by
  show String.mk ((s.data.map Char.toLower).map Char.toLower) = String.mk (s.data.map Char.toLower)
  rw [List.map_map]
  congr 1
  exact List.map_congr_left (fun c _ => toLower_idem c)

/-- C9: for every string s, normalize(s) equals normalize(lowercase(s)):
the input is lower-cased before both the table lookup and the fallback echo,
and lower-casing is idempotent, so a pre-lower-cased input gives the same
triplet. -/
theorem parse_type_lower_invariant (s : String) : _parse_type s = _parse_type (pyLower s) := by
  unfold _parse_type
  rw [pyLower_idem]

/-- C5: for every recognized token, the triplet returned by _parse_type is
exactly the one given by the fixed table: char/string/datetime/date map to
(string, str, ""), double/float/decimal to (float, np.float64, np.nan),
int/short/long/number to (integer, np.int64, -999), boolean/binary to
(boolean, bool, None), unsignedbyte to (byte, np.ubyte, -999). -/
theorem parse_type_table :
    _parse_type "char" = ("string", PyType.pystr, PyVal.str "") ∧
    _parse_type "string" = ("string", PyType.pystr, PyVal.str "") ∧
    _parse_type "datetime" = ("string", PyType.pystr, PyVal.str "") ∧
    _parse_type "date" = ("string", PyType.pystr, PyVal.str "") ∧
    _parse_type "double" = ("float", PyType.npFloat64, PyVal.nan) ∧
    _parse_type "float" = ("float", PyType.npFloat64, PyVal.nan) ∧
    _parse_type "decimal" = ("float", PyType.npFloat64, PyVal.nan) ∧
    _parse_type "int" = ("integer", PyType.npInt64, PyVal.int (-999)) ∧
    _parse_type "short" = ("integer", PyType.npInt64, PyVal.int (-999)) ∧
    _parse_type "long" = ("integer", PyType.npInt64, PyVal.int (-999)) ∧
    _parse_type "number" = ("integer", PyType.npInt64, PyVal.int (-999)) ∧
    _parse_type "boolean" = ("boolean", PyType.pybool, PyVal.none) ∧
    _parse_type "binary" = ("boolean", PyType.pybool, PyVal.none) ∧
    _parse_type "unsignedbyte" = ("byte", PyType.npUbyte, PyVal.int (-999)) := by
  decide

/-- C7: for every recognized token T of the table, _parse_type returns the
identical triplet on T and on its upper-cased form: the lookup is
case-insensitive over the recognized set. -/
theorem parse_type_case_insensitive :
    ∀ T ∈ recognizedTokens, _parse_type T = _parse_type (pyUpper T) := by
  decide

/-- Witness for C7 at the concrete token char. -/
theorem parse_type_case_insensitive_witness :
    "char" ∈ recognizedTokens ∧ _parse_type "char" = _parse_type (pyUpper "char") :=
  ⟨by decide, parse_type_case_insensitive "char" (by decide)⟩

/-- Counterexample to C6 as stated: Xyz is not a recognized token, yet
normalize(Xyz) is not the echo triplet of the original string — the code
echoes the lower-cased token xyz, not Xyz. -/
theorem parse_type_echo_cx :
    "Xyz" ∉ recognizedTokens ∧
    _parse_type "Xyz" ≠ ("Xyz", PyType.strVal "Xyz", PyVal.str "Xyz") := by
  decide

/-- C6 amended: for every string S whose lower-casing is outside the
recognized table, _parse_type returns the echo triplet of the lower-cased
token (t, t, t) with t = lowercase(S); this is a total function, never a
failure. -/
theorem parse_type_echo_lowercased (S : String) (h : typeTable (pyLower S) = none) :
    _parse_type S = (pyLower S, PyType.strVal (pyLower S), PyVal.str (pyLower S)) := by
  simp [_parse_type, h]

/-- Witness for the amended C6 at the concrete unrecognized token Xyz. -/
theorem parse_type_echo_lowercased_witness :
    typeTable (pyLower "Xyz") = none ∧
    _parse_type "Xyz" = (pyLower "Xyz", PyType.strVal (pyLower "Xyz"), PyVal.str (pyLower "Xyz")) :=
  ⟨by decide, parse_type_echo_lowercased "Xyz" (by decide)⟩

/-- C3: the code is broken at the serialization step. Line 100 passes the
JSON document, a str, to urllib.parse.urlencode, which expects a mapping or
a sequence of pairs and raises TypeError on every non-empty str (the
upstream project uses urllib.parse.quote here). The body
request=[url-encoded-json] is therefore never produced and resolve_object
raises TypeError before any request is made, whatever the transport. -/
theorem resolve_request_typeerror :
    request_string "M31" =
      Except.error (PyError.typeError "not a valid non-string sequence or mapping object") ∧
    ∀ version defaultUA server transport,
      resolve_object version defaultUA server transport "M31" =
        Except.error (PyError.typeError "not a valid non-string sequence or mapping object") :=
  ⟨rfl, fun _ _ _ _ => rfl⟩

/-- C8: for every url and params, _simple_request hands the transport a
request for that url with those params whose headers are the fixed ones:
Content-Type (spelled Content-type in the source, HTTP header names being
case-insensitive) application/x-www-form-urlencoded, Accept text/plain, and
a User-Agent concatenating the astroquery version identifier with the
default User-Agent of the transport session; the headers do not depend on
url or params, and the result of _simple_request depends on the transport
only at that request. -/
theorem simple_request_fixed_headers (version defaultUA url params : String)
    (transport : OutgoingRequest → HttpResponse) :
    ∃ sent : OutgoingRequest,
      sent.url = url ∧ sent.params = params ∧
      headerValue sent.headers "Content-Type" = some "application/x-www-form-urlencoded" ∧
      headerValue sent.headers "Accept" = some "text/plain" ∧
      headerValue sent.headers "User-Agent" = some ("astroquery/" ++ version ++ " " ++ defaultUA) ∧
      sent.headers = request_headers version defaultUA ∧
      _simple_request version defaultUA transport url params =
        (match raise_for_status (transport sent) with
         | Except.error e => Except.error e
         | Except.ok _ => Except.ok (transport sent)) := by
  refine ⟨OutgoingRequest.mk url params (request_headers version defaultUA),
    rfl, rfl, rfl, rfl, rfl, rfl, rfl⟩

/-- Counterexample to C4 as stated: on a mocked response with status 304 —
not in the 2xx success range — get does not fail: raise_for_status only
raises for 400-599, so the response is returned. -/
theorem get_status_cx :
    _simple_request "v" "ua" (fun _ => response304) "u" "p" = Except.ok response304 ∧
    ¬ (200 ≤ response304.status_code ∧ response304.status_code ≤ 299) :=
  ⟨rfl, by decide⟩

/-- C4 amended: get fails with an HTTP-status error exactly when the status
code lies in the client or server error range 400-599 (on any other code,
including non-success codes such as 304, the response is returned), and when
it fails the resolver pipeline after the encoding step propagates that very
error and constructs no SkyPosition. -/
theorem get_status_amended
    (version defaultUA url params server objectname reqstr : String)
    (response : HttpResponse) :
    ((400 ≤ response.status_code ∧ response.status_code < 600) →
       _simple_request version defaultUA (fun _ => response) url params =
         Except.error (PyError.httpError response.status_code) ∧
       resolve_object_after_encode version defaultUA server (fun _ => response) objectname reqstr =
         Except.error (PyError.httpError response.status_code)) ∧
    (¬ (400 ≤ response.status_code ∧ response.status_code < 600) →
       _simple_request version defaultUA (fun _ => response) url params = Except.ok response) := by
  constructor
  · intro h
    constructor
    · simp [_simple_request, raise_for_status, if_pos h]
    · simp [resolve_object_after_encode, _simple_request, raise_for_status, if_pos h,
            Bind.bind, Except.bind]
  · intro h
    simp [_simple_request, raise_for_status, if_neg h]

/-- Witness for the amended C4 at a mocked 404 and a mocked 200 response. -/
theorem get_status_amended_witness :
    (_simple_request "v" "ua" (fun _ => response404) "u" "p" =
       Except.error (PyError.httpError response404.status_code) ∧
     resolve_object_after_encode "v" "ua" "s" (fun _ => response404) "o" "r" =
       Except.error (PyError.httpError response404.status_code)) ∧
    _simple_request "v" "ua" (fun _ => response200null) "u" "p" = Except.ok response200null :=
  ⟨(get_status_amended "v" "ua" "u" "p" "s" "o" "r" response404).1 (by decide),
   (get_status_amended "v" "ua" "u" "p" "s" "o" "r" response200null).2 (by decide)⟩

/-- C1: for every non-error response whose parsed JSON carries a non-empty
resolvedCoordinate sequence whose first candidate has ra and decl fields,
the resolver pipeline returns the SkyPosition built from exactly those two
fields of candidate 0 with unit degrees; the tail of the sequence is
universally quantified, so no later candidate is ever consulted, however
many follow and whatever they contain. -/
theorem resolve_first_candidate
    (version defaultUA server objectname reqstr : String)
    (response : HttpResponse) (fields cand : List (String × JVal))
    (rest : List JVal) (ra dec : JVal)
    (hstatus : ¬ (400 ≤ response.status_code ∧ response.status_code < 600))
    (hbody : response.jsonBody = some (JVal.obj fields))
    (hrc : lookupLast fields "resolvedCoordinate" = some (JVal.arr (JVal.obj cand :: rest)))
    (hra : lookupLast cand "ra" = some ra)
    (hdec : lookupLast cand "decl" = some dec) :
    resolve_object_after_encode version defaultUA server (fun _ => response) objectname reqstr =
      Except.ok (SkyPosition.mk ra dec "deg") := by
  simp [resolve_object_after_encode, _simple_request, raise_for_status, if_neg hstatus,
        response_json, hbody, resolve_object_from_json, getItem, hrc, pyLen, getIndex,
        hra, hdec, Bind.bind, Except.bind]

/-- Witness for C1: a mocked 200 response with two candidates, the second
with its fields in the opposite order; the result is built from the first. -/
theorem resolve_first_candidate_witness :
    resolve_object_after_encode "v" "ua" "server" (fun _ => crabResponse) "Crab Nebula" "req" =
      Except.ok (SkyPosition.mk (JVal.num (83633/1000)) (JVal.num (220145/10000)) "deg") :=
  resolve_first_candidate "v" "ua" "server" "Crab Nebula" "req" crabResponse _ _ _ _ _
    (by decide) rfl rfl rfl rfl

/-- C2: for every non-error response whose parsed JSON carries an empty
resolvedCoordinate sequence, the resolver pipeline fails with ResolverError,
whose message contains the unresolved object name, and returns no
SkyPosition. -/
theorem resolve_empty_error
    (version defaultUA server objectname reqstr : String)
    (response : HttpResponse) (fields : List (String × JVal))
    (hstatus : ¬ (400 ≤ response.status_code ∧ response.status_code < 600))
    (hbody : response.jsonBody = some (JVal.obj fields))
    (hrc : lookupLast fields "resolvedCoordinate" = some (JVal.arr [])) :
    resolve_object_after_encode version defaultUA server (fun _ => response) objectname reqstr =
      Except.error (PyError.resolverError
        ("Could not resolve " ++ objectname ++ " to a sky position.")) ∧
    containsSubstring ("Could not resolve " ++ objectname ++ " to a sky position.") objectname := by
  constructor
  · simp [resolve_object_after_encode, _simple_request, raise_for_status, if_neg hstatus,
          response_json, hbody, resolve_object_from_json, getItem, hrc, pyLen,
          Bind.bind, Except.bind]
  · exact ⟨"Could not resolve ", " to a sky position.", rfl⟩

/-- Witness for C2 at a mocked 200 response with an empty candidate list. -/
theorem resolve_empty_error_witness :
    resolve_object_after_encode "v" "ua" "server" (fun _ => emptyResolveResponse)
        "nonexistent-object-xyz" "req" =
      Except.error (PyError.resolverError
        ("Could not resolve " ++ "nonexistent-object-xyz" ++ " to a sky position.")) ∧
    containsSubstring ("Could not resolve " ++ "nonexistent-object-xyz" ++ " to a sky position.")
      "nonexistent-object-xyz" :=
  resolve_empty_error "v" "ua" "server" "nonexistent-object-xyz" "req" emptyResolveResponse _
    (by decide) rfl rfl

/-- C10: ResolverError arises exactly from the empty-candidates test of line
105: an empty resolvedCoordinate list produces ResolverError naming the
object; conversely every ResolverError comes from a parsed dict whose
resolvedCoordinate entry has len zero; and when the sequence is non-empty
but its first candidate lacks the ra field — or has ra but lacks decl — the
failure is the corresponding KeyError, never a ResolverError, and no
SkyPosition is built. -/
theorem resolver_error_iff_empty :
    (∀ name fields, lookupLast fields "resolvedCoordinate" = some (JVal.arr []) →
       resolve_object_from_json name (JVal.obj fields) =
         Except.error (PyError.resolverError
           ("Could not resolve " ++ name ++ " to a sky position."))) ∧
    (∀ name result m,
       resolve_object_from_json name result = Except.error (PyError.resolverError m) →
       resolvedCoordinateEmpty result) ∧
    (∀ name fields cand cs,
       lookupLast fields "resolvedCoordinate" = some (JVal.arr (JVal.obj cand :: cs)) →
       lookupLast cand "ra" = none →
       resolve_object_from_json name (JVal.obj fields) = Except.error (PyError.keyError "ra")) ∧
    (∀ name fields cand cs ra,
       lookupLast fields "resolvedCoordinate" = some (JVal.arr (JVal.obj cand :: cs)) →
       lookupLast cand "ra" = some ra →
       lookupLast cand "decl" = none →
       resolve_object_from_json name (JVal.obj fields) = Except.error (PyError.keyError "decl")) := by
  refine ⟨?_, ?_, ?_, ?_⟩
  · intro name fields h
    simp [resolve_object_from_json, getItem, h, pyLen, Bind.bind, Except.bind]
  · intro name result m h
    cases result with
    | obj fields =>
      cases hl : lookupLast fields "resolvedCoordinate" with
      | none => simp [resolve_object_from_json, getItem, hl, Bind.bind, Except.bind] at h
      | some rc =>
        cases rc with
        | arr elems =>
          cases elems with
          | nil => exact ⟨fields, JVal.arr [], rfl, hl, by simp [pyLen]⟩
          | cons e es =>
            exfalso
            cases e with
            | obj cand =>
              cases h1 : lookupLast cand "ra" with
              | none =>
                simp [resolve_object_from_json, getItem, hl, pyLen, getIndex, h1,
                      Bind.bind, Except.bind] at h
              | some ra =>
                cases h2 : lookupLast cand "decl" with
                | none =>
                  simp [resolve_object_from_json, getItem, hl, pyLen, getIndex, h1, h2,
                        Bind.bind, Except.bind] at h
                | some dec =>
                  simp [resolve_object_from_json, getItem, hl, pyLen, getIndex, h1, h2,
                        Bind.bind, Except.bind] at h
            | null =>
              simp [resolve_object_from_json, getItem, hl, pyLen, getIndex,
                    Bind.bind, Except.bind] at h
            | bool b =>
              simp [resolve_object_from_json, getItem, hl, pyLen, getIndex,
                    Bind.bind, Except.bind] at h
            | num q =>
              simp [resolve_object_from_json, getItem, hl, pyLen, getIndex,
                    Bind.bind, Except.bind] at h
            | str s =>
              simp [resolve_object_from_json, getItem, hl, pyLen, getIndex,
                    Bind.bind, Except.bind] at h
            | arr elems2 =>
              simp [resolve_object_from_json, getItem, hl, pyLen, getIndex,
                    Bind.bind, Except.bind] at h
        | str s =>
          cases hs : s.data with
          | nil =>
            refine ⟨fields, JVal.str s, rfl, hl, ?_⟩
            simp [pyLen, String.length, hs]
          | cons c cs =>
            exfalso
            simp [resolve_object_from_json, getItem, hl, pyLen, String.length, hs, getIndex,
                  Bind.bind, Except.bind] at h
        | obj f2 =>
          cases hk : (f2.map Prod.fst).eraseDups with
          | nil =>
            refine ⟨fields, JVal.obj f2, rfl, hl, ?_⟩
            simp [pyLen, hk]
          | cons k ks =>
            exfalso
            simp [resolve_object_from_json, getItem, hl, pyLen, hk, getIndex,
                  Bind.bind, Except.bind] at h
        | null =>
          exfalso
          simp [resolve_object_from_json, getItem, hl, pyLen, Bind.bind, Except.bind] at h
        | bool b =>
          exfalso
          simp [resolve_object_from_json, getItem, hl, pyLen, Bind.bind, Except.bind] at h
        | num q =>
          exfalso
          simp [resolve_object_from_json, getItem, hl, pyLen, Bind.bind, Except.bind] at h
    | null => simp [resolve_object_from_json, getItem, Bind.bind, Except.bind] at h
    | bool b => simp [resolve_object_from_json, getItem, Bind.bind, Except.bind] at h
    | num q => simp [resolve_object_from_json, getItem, Bind.bind, Except.bind] at h
    | str s => simp [resolve_object_from_json, getItem, Bind.bind, Except.bind] at h
    | arr elems => simp [resolve_object_from_json, getItem, Bind.bind, Except.bind] at h
  · intro name fields cand cs hrc hra
    simp [resolve_object_from_json, getItem, hrc, pyLen, getIndex, hra, Bind.bind, Except.bind]
  · intro name fields cand cs ra hrc hra hdec
    simp [resolve_object_from_json, getItem, hrc, pyLen, getIndex, hra, hdec,
          Bind.bind, Except.bind]

/-- Witness for C10: the four behaviours at concrete parsed bodies — empty
list, the empty-list source condition, a first candidate without ra, and a
first candidate with ra but without decl. -/
theorem resolver_error_iff_empty_witness :
    resolve_object_from_json "a" (JVal.obj [("resolvedCoordinate", JVal.arr [])]) =
      Except.error (PyError.resolverError ("Could not resolve " ++ "a" ++ " to a sky position.")) ∧
    resolvedCoordinateEmpty (JVal.obj [("resolvedCoordinate", JVal.arr [])]) ∧
    resolve_object_from_json "a" (JVal.obj [("resolvedCoordinate", JVal.arr [JVal.obj []])]) =
      Except.error (PyError.keyError "ra") ∧
    resolve_object_from_json "a"
        (JVal.obj [("resolvedCoordinate", JVal.arr [JVal.obj [("ra", JVal.num 1)]])]) =
      Except.error (PyError.keyError "decl") :=
  ⟨resolver_error_iff_empty.1 "a" _ rfl,
   resolver_error_iff_empty.2.1 "a" _ ("Could not resolve " ++ "a" ++ " to a sky position.") rfl,
   resolver_error_iff_empty.2.2.1 "a" _ [] [] rfl rfl,
   resolver_error_iff_empty.2.2.2 "a" _ [("ra", JVal.num 1)] [] (JVal.num 1) rfl rfl rfl⟩
